import Mathlib

/-!
Verification development for the synthetic transaction generator and the
rule-based risk scoring engine of the financial crime monitoring backend
(`backend/data_generator.py` and the store endpoints of `backend/main.py`).

Python floats are modelled as rationals, `random.randint(a, b)` as a function
of a natural draw mapped into `[a, b]`, `random.uniform(lo, hi)` as a function
of a rational draw mapped into `[lo, hi)`, and `random.choice` /
`random.choices` as selection of a list element by a natural draw (weights
bias the distribution but never change the support, which is all that the
claims depend on).  `round(x, 2)` is modelled as round-half-to-even at two
decimal places, and Python `int()` as truncation toward zero.
-/

namespace FCM

/- ### Python modelling primitives -/

/-- Floor of a rational, computably (`Rat.num / Rat.den`). -/
def ratFloor (q : ℚ) : ℤ := q.num / q.den

theorem ratFloor_eq (q : ℚ) : ratFloor q = ⌊q⌋ := Rat.floor_def.symm

/-- Python `int()` applied to a float: truncation toward zero. -/
def pyInt (q : ℚ) : ℤ := if q < 0 then -ratFloor (-q) else ratFloor q

theorem pyInt_eq_floor_of_nonneg (q : ℚ) (h : 0 ≤ q) : pyInt q = ⌊q⌋ := by
  unfold pyInt
  rw [if_neg (by exact not_lt.mpr h), ratFloor_eq]

/-- Fractional part, computably. -/
def fract (x : ℚ) : ℚ := x - ratFloor x

theorem fract_eq (x : ℚ) : fract x = Int.fract x := by
  unfold fract Int.fract
  rw [ratFloor_eq]

theorem fract_nonneg (x : ℚ) : 0 ≤ fract x := by
  rw [fract_eq]; exact Int.fract_nonneg x

theorem fract_lt_one (x : ℚ) : fract x < 1 := by
  rw [fract_eq]; exact Int.fract_lt_one x

/-- `random.uniform lo hi`, as a function of a rational draw `x`: the draw is
mapped into `[lo, hi)` via its fractional part. -/
def uniform (lo hi x : ℚ) : ℚ := lo + (hi - lo) * fract x

theorem uniform_mem (lo hi x : ℚ) (h : lo ≤ hi) :
    lo ≤ uniform lo hi x ∧ uniform lo hi x ≤ hi := by
  unfold uniform
  constructor
  · nlinarith [fract_nonneg x, fract_lt_one x]
  · nlinarith [fract_nonneg x, fract_lt_one x]

theorem uniform_exact (lo hi v : ℚ) (h1 : lo ≤ v) (h2 : v < hi) :
    uniform lo hi ((v - lo) / (hi - lo)) = v := by
  unfold uniform
  have hlt : lo < hi := lt_of_le_of_lt h1 h2
  have hne : hi - lo ≠ 0 := by linarith
  have hfr : fract ((v - lo) / (hi - lo)) = (v - lo) / (hi - lo) := by
    rw [fract_eq]
    apply Int.fract_eq_self.mpr
    constructor
    · apply div_nonneg <;> linarith
    · rw [div_lt_one (by linarith)]
      linarith
  rw [hfr]
  field_simp

/-- `random.randint a b`, as a function of a natural draw `u`: the draw is
mapped into `[a, b]` by reduction modulo the width of the interval. -/
def randint (a b : ℤ) (u : ℕ) : ℤ := a + ((u % (b - a + 1).toNat : ℕ) : ℤ)

theorem randint_mem (a b : ℤ) (u : ℕ) (h : a ≤ b) :
    a ≤ randint a b u ∧ randint a b u ≤ b := by
  unfold randint
  have hn : ((b - a + 1).toNat : ℤ) = b - a + 1 := Int.toNat_of_nonneg (by omega)
  have hpos : 0 < (b - a + 1).toNat := by omega
  have hlt : u % (b - a + 1).toNat < (b - a + 1).toNat := Nat.mod_lt u hpos
  omega

theorem randint_exact (a b c : ℤ) (h1 : a ≤ c) (h2 : c ≤ b) :
    randint a b (c - a).toNat = c := by
  unfold randint
  have hca : ((c - a).toNat : ℤ) = c - a := Int.toNat_of_nonneg (by omega)
  have hn : ((b - a + 1).toNat : ℤ) = b - a + 1 := Int.toNat_of_nonneg (by omega)
  have hlt : (c - a).toNat < (b - a + 1).toNat := by omega
  rw [Nat.mod_eq_of_lt hlt]
  omega

/-- `random.choice` (and the support of `random.choices`): selection of a list
element by a natural draw. -/
def choice (l : List String) (u : ℕ) : String := l.getD (u % l.length) ""

theorem choice_mem (l : List String) (u : ℕ) (h : l ≠ []) : choice l u ∈ l := by
  unfold choice
  have hlen : 0 < l.length := List.length_pos.mpr h
  have hlt : u % l.length < l.length := Nat.mod_lt u hlen
  rw [List.getD_eq_getElem l "" hlt]
  exact l.getElem_mem hlt

/-- Round-half-to-even to an integer (the rounding mode of Python `round`). -/
def rne (x : ℚ) : ℤ :=
  if fract x < 1/2 then ratFloor x
  else if 1/2 < fract x then ratFloor x + 1
  else if 2 ∣ ratFloor x then ratFloor x else ratFloor x + 1

theorem rne_bounds (m M : ℤ) (y : ℚ) (h1 : (m : ℚ) ≤ y) (h2 : y ≤ (M : ℚ)) :
    m ≤ rne y ∧ rne y ≤ M := by
  have hfl : m ≤ ⌊y⌋ := Int.le_floor.mpr h1
  have hfu : ⌊y⌋ ≤ M := by
    have := Int.floor_le_floor h2
    rwa [Int.floor_intCast] at this
  have hup : ¬ fract y < 1/2 → ⌊y⌋ + 1 ≤ M := by
    intro hge
    rcases eq_or_lt_of_le hfu with heq | hlt
    · exfalso
      have hy : y = (M : ℚ) := by
        have := Int.floor_le y
        rw [heq] at this
        exact le_antisymm h2 this
      have : fract y = 0 := by
        rw [fract_eq, hy, Int.fract_intCast]
      rw [this] at hge
      norm_num at hge
    · omega
  unfold rne
  rw [ratFloor_eq]
  split_ifs with hc1 hc2 hc3
  · exact ⟨hfl, hfu⟩
  · exact ⟨by omega, hup hc1⟩
  · exact ⟨hfl, hfu⟩
  · exact ⟨by omega, hup hc1⟩

theorem rne_intCast (n : ℤ) : rne (n : ℚ) = n := by
  unfold rne
  have h : fract (n : ℚ) = 0 := by
    rw [fract_eq, Int.fract_intCast]
  rw [h, ratFloor_eq, Int.floor_intCast]
  norm_num

/-- Python `round(x, 2)`: round-half-to-even at two decimal places. -/
def round2 (x : ℚ) : ℚ := ((rne (100 * x) : ℤ) : ℚ) / 100

theorem round2_bounds (lo hi : ℤ) (x : ℚ) (h1 : (lo : ℚ) ≤ x) (h2 : x ≤ (hi : ℚ)) :
    (lo : ℚ) ≤ round2 x ∧ round2 x ≤ (hi : ℚ) := by
  have hb := rne_bounds (100 * lo) (100 * hi) (100 * x)
    (by push_cast; linarith) (by push_cast; linarith)
  unfold round2
  constructor
  · rw [le_div_iff₀ (by norm_num : (0:ℚ) < 100)]
    have h' : ((100 * lo : ℤ) : ℚ) ≤ ((rne (100 * x) : ℤ) : ℚ) := by exact_mod_cast hb.1
    push_cast at h' ⊢
    linarith
  · rw [div_le_iff₀ (by norm_num : (0:ℚ) < 100)]
    have h' : ((rne (100 * x) : ℤ) : ℚ) ≤ ((100 * hi : ℤ) : ℚ) := by exact_mod_cast hb.2
    push_cast at h' ⊢
    linarith

theorem round2_two_decimals (x : ℚ) : ∃ n : ℤ, 100 * round2 x = (n : ℚ) := by
  refine ⟨rne (100 * x), ?_⟩
  unfold round2
  field_simp

theorem round2_intCast (n : ℤ) : round2 (n : ℚ) = n := by
  unfold round2
  have h : (100 : ℚ) * (n : ℚ) = ((100 * n : ℤ) : ℚ) := by push_cast; ring
  rw [h, rne_intCast]
  push_cast
  ring

/- ### Constants of `backend/data_generator.py` -/

def TRANSACTION_TYPES : List String := ["transfer", "deposit", "withdrawal", "payment"]

def RISK_INDICATORS : List String := ["Normal", "High"]

def LOW_RISK_COUNTRIES : List String :=
  ["USA", "Canada", "United Kingdom", "Germany", "France", "Japan", "Australia",
   "New Zealand", "Sweden", "Norway", "Denmark", "Finland"]

def MEDIUM_RISK_COUNTRIES : List String :=
  ["Mexico", "Brazil", "India", "China", "South Africa", "Turkey",
   "Saudi Arabia", "UAE", "Thailand", "Malaysia"]

def HIGH_RISK_COUNTRIES : List String :=
  ["Russia", "Belarus", "North Korea", "Iran", "Afghanistan", "Syria",
   "Venezuela", "Cayman Islands", "Panama", "Cyprus"]

def DEFAULT_CURRENCY : String := "SGD"

def STATUS_OPTIONS : List String := ["flagged", "reviewed", "dismissed"]

def ACCOUNT_TYPES : List String := ["Personal", "Business", "Private Banking", "Corporate"]

def RISK_PROFILES : List String := ["Low", "Medium", "High"]

/- ### Data model -/

structure CustomerInfo where
  name : String
  accountType : String
  riskProfile : String
deriving DecidableEq, Inhabited

/-- A transaction record; the fields the verified claims depend on.
`timestamp` is an instant in seconds (the ISO-8601 string of the source is a
faithful rendering of such an instant, and the batch sort keys on it). -/
structure Transaction where
  id : String
  customerId : String
  amount : ℚ
  currency : String
  country : String
  transactionType : String
  riskIndicator : String
  timestamp : ℤ
  status : String
  customerInfo : CustomerInfo
deriving DecidableEq, Inhabited

/-- The random draws consumed by one call of `generate_transaction`, together
with the external inputs (uuid fragments, faker name). -/
structure GenDraws where
  uRisk : ℕ
  uTierPick : ℕ
  uCountry : ℕ
  uTransType : ℕ
  xAmount : ℚ
  uDays : ℕ
  uHours : ℕ
  uMinutes : ℕ
  uSeconds : ℕ
  uStatus : ℕ
  uAccount : ℕ
  uProfile : ℕ
  idSuffix : String
  custSuffix : String
  custName : String
deriving Inhabited

/-- Resolution of an optional explicit argument against its drawn default
(the Python `if not arg:` pattern).  Python falsiness: both `None` and the
empty string count as unspecified and are replaced by the drawn default. -/
def resolveOpt (o : Option String) (dflt : String) : String :=
  match o with
  | some s => if s = "" then dflt else s
  | none => dflt

theorem resolveOpt_some_ne (s dflt : String) (h : s ≠ "") :
    resolveOpt (some s) dflt = s := by
  simp [resolveOpt, h]

/-- Lines 81-96 of `data_generator.py`: tier-list selection conditioned on the
risk level (weights bias the pick, the support is the three tiers). -/
def pickTierList (risk_level : String) (u : ℕ) : List String :=
  if risk_level = "High" then
    [HIGH_RISK_COUNTRIES, MEDIUM_RISK_COUNTRIES, LOW_RISK_COUNTRIES].getD (u % 3) []
  else
    [LOW_RISK_COUNTRIES, MEDIUM_RISK_COUNTRIES, HIGH_RISK_COUNTRIES].getD (u % 3) []

/-- Lines 106-133 of `data_generator.py`: the (type, riskLevel)-specific
amount, uniform in the documented bounds and rounded to two decimals.  Any
transaction type other than the three tested ones falls into the trailing
`payment` branch, exactly as the Python `else` does. -/
def pickAmount (transaction_type risk_level : String) (x : ℚ) : ℚ :=
  if transaction_type = "transfer" then
    if risk_level = "High" then round2 (uniform 50000 2000000 x)
    else round2 (uniform 500 50000 x)
  else if transaction_type = "deposit" then
    if risk_level = "High" then round2 (uniform 25000 800000 x)
    else round2 (uniform 200 25000 x)
  else if transaction_type = "withdrawal" then
    if risk_level = "High" then round2 (uniform 15000 200000 x)
    else round2 (uniform 100 15000 x)
  else
    if risk_level = "High" then round2 (uniform 5000 150000 x)
    else round2 (uniform 50 5000 x)

/-- `generate_transaction` of `data_generator.py` (lines 59-264), with the
randomness and external inputs supplied through `d` and the generation time
through `now`.  The merchant info and description assembly are not modelled:
no verified claim mentions them. -/
def generate_transaction (country0 risk_level0 transaction_type0 : Option String)
    (d : GenDraws) (now : ℤ) : Transaction :=
  let risk_level := resolveOpt risk_level0 (choice RISK_INDICATORS d.uRisk)
  let country := resolveOpt country0 (choice (pickTierList risk_level d.uTierPick) d.uCountry)
  let currency := DEFAULT_CURRENCY
  let transaction_type := resolveOpt transaction_type0 (choice TRANSACTION_TYPES d.uTransType)
  let amount := pickAmount transaction_type risk_level d.xAmount
  let transaction_id := "TXN-" ++ d.idSuffix
  let customer_id := "CUST-" ++ d.custSuffix
  let days_ago := randint 0 30 d.uDays
  let hours_ago := randint 0 23 d.uHours
  let minutes_ago := randint 0 59 d.uMinutes
  let seconds_ago := randint 0 59 d.uSeconds
  let timestamp := now - (86400 * days_ago + 3600 * hours_ago + 60 * minutes_ago + seconds_ago)
  let status :=
    if risk_level = "High" then choice STATUS_OPTIONS d.uStatus
    else choice STATUS_OPTIONS d.uStatus
  let risk_profile :=
    if risk_level = "High" then choice RISK_PROFILES d.uProfile
    else choice RISK_PROFILES d.uProfile
  { id := transaction_id
    customerId := customer_id
    amount := amount
    currency := currency
    country := country
    transactionType := transaction_type
    riskIndicator := risk_level
    timestamp := timestamp
    status := status
    customerInfo :=
      { name := d.custName
        accountType := choice ACCOUNT_TYPES d.uAccount
        riskProfile := risk_profile } }

/-- `generate_transactions` of `data_generator.py` (lines 267-293): the batch
generator.  `high_risk_count = int(count * high_risk_percentage)` truncates
toward zero; negative loop bounds give empty ranges (`Int.toNat`); the final
sort is by timestamp, most recent first (Python's stable sort with
`reverse=True`). -/
def generate_transactions (count : ℤ) (high_risk_percentage : ℚ)
    (ds : ℕ → GenDraws) (now : ℤ) : List Transaction :=
  let high_risk_count := pyInt ((count : ℚ) * high_risk_percentage)
  let normal_count := count - high_risk_count
  let highs := (List.range high_risk_count.toNat).map
    (fun i => generate_transaction none (some "High") none (ds i) now)
  let normals := (List.range normal_count.toNat).map
    (fun i => generate_transaction none (some "Normal") none (ds (high_risk_count.toNat + i)) now)
  (highs ++ normals).mergeSort (fun a b => decide (b.timestamp ≤ a.timestamp))

/- ### The risk scoring engine -/

/-- The analysis record; the fields the verified claims depend on. -/
structure Analysis where
  transactionId : String
  riskScore : ℤ
  riskAssessment : String
  recommendedAction : String
deriving DecidableEq, Inhabited

/-- Lines 331-336 of `data_generator.py`: the per-type amount thresholds.
Missing keys raise `KeyError` in Python, modelled by `none`. -/
def amount_thresholds (transaction_type : String) : Option ℤ :=
  if transaction_type = "transfer" then some 50000
  else if transaction_type = "deposit" then some 25000
  else if transaction_type = "withdrawal" then some 15000
  else if transaction_type = "payment" then some 5000
  else none

/-- `generate_ai_analysis` of `data_generator.py` (lines 296-531), restricted
to the score and banding outputs the claims mention.  `u1 u2 u3 u4` are the
four `randint` draws of the score computation, in source order.  An
unrecognized transaction type makes the Python code raise `KeyError` at the
threshold lookup, modelled by `none`. -/
def generate_ai_analysis (transaction : Transaction) (u1 u2 u3 u4 : ℕ) : Option Analysis :=
  let risk_level := transaction.riskIndicator
  let transaction_type := transaction.transactionType
  let amount := transaction.amount
  let country := transaction.country
  let customer_profile := transaction.customerInfo.riskProfile
  match amount_thresholds transaction_type with
  | none => none
  | some thr =>
    let s1 : ℤ := 50 +
      (if risk_level = "High" then randint 20 35 u1 else randint (-20) 5 u1)
    let s2 : ℤ := s1 +
      (if country ∈ HIGH_RISK_COUNTRIES then randint 10 20 u2
       else if country ∈ MEDIUM_RISK_COUNTRIES then randint 5 10 u2
       else randint (-10) 5 u2)
    let s3 : ℤ := s2 +
      (if amount > (thr : ℚ) * 5 then randint 15 25 u3
       else if amount > (thr : ℚ) then randint 5 15 u3
       else 0)
    let s4 : ℤ := s3 +
      (if customer_profile = "High" then randint 5 15 u4
       else if customer_profile = "Low" then -(randint 5 15 u4)
       else 0)
    let risk_score := max 5 (min 95 s4)
    let band : String × String :=
      if risk_score ≥ 80 then
        (("Very high risk - " ++ transaction_type ++ " in " ++ country)
          ++ (if risk_level = "High" then " from high-risk entity" else ""),
         "Escalate")
      else if risk_score ≥ 60 then
        ("High risk " ++ transaction_type, "Escalate")
      else if risk_score ≥ 40 then
        ("Medium risk " ++ transaction_type ++ " requiring review", "Monitor")
      else if risk_score ≥ 20 then
        ("Low risk transaction within normal parameters", "Monitor")
      else
        ("Very low risk " ++ transaction_type, "Dismiss")
    some { transactionId := transaction.id
           riskScore := risk_score
           riskAssessment := band.1
           recommendedAction := band.2 }

/- ### The in-memory store endpoints of `backend/main.py` -/

/-- The two module-level dict stores of `main.py` (lines 37-38), as
association lists with last-write-wins lookup (new entries are prepended and
lookup takes the first match). -/
structure AppState where
  transaction_store : List (String × Transaction)
  analysis_store : List (String × Analysis)
deriving Inhabited

def lookupTx (store : List (String × Transaction)) (k : String) : Option Transaction :=
  (store.find? (fun p => p.1 == k)).map Prod.snd

/-- `get_transaction_by_id` of `main.py` (lines 332-361): a stored id is
returned unchanged; an absent id makes the endpoint generate a fresh
transaction (`generate_transactions(count=1)` with the default high-risk
percentage 0.3), overwrite its id with the requested one, store it, and
return it. -/
def get_transaction_by_id (st : AppState) (transaction_id : String)
    (d : GenDraws) (now : ℤ) : Transaction × AppState :=
  match lookupTx st.transaction_store transaction_id with
  | some tx => (tx, st)
  | none =>
    let generated := (generate_transactions 1 (3/10) (fun _ => d) now).getD 0 default
    let tx := { generated with id := transaction_id }
    (tx, { st with transaction_store := (transaction_id, tx) :: st.transaction_store })

/-- `update_transaction_status` of `main.py` (lines 401-424): validates the
requested status value and returns a message; it never touches either store
(the code only logs).  Invalid values raise, and the blanket handler rewraps
the 400 as a 500; either way the state is untouched. -/
def update_transaction_status (st : AppState) (transaction_id : String)
    (status_update : Option String) : Except String String × AppState :=
  match status_update with
  | some new_status =>
    if new_status ∈ ["flagged", "reviewed", "dismissed"] then
      (Except.ok ("Transaction " ++ transaction_id ++ " status updated to " ++ new_status), st)
    else
      (Except.error "Failed to update transaction: 400: Invalid status value", st)
  | none => (Except.error "Failed to update transaction: 400: Invalid status value", st)

/- ### Spec-side characterizations (from the wording of the specification) -/

/-- Spec 4.2: final score = clamp(sum, 5, 95). -/
def clampScore (s : ℤ) : ℤ := max 5 (min 95 s)

/-- Spec 4.2: riskIndicator High adds a uniform integer in [20,35], Normal
adds one in [-20,5]. -/
def specContribIndicator (risk_level : String) (c : ℤ) : Prop :=
  if risk_level = "High" then 20 ≤ c ∧ c ≤ 35 else -20 ≤ c ∧ c ≤ 5

/-- Spec 4.2: high-risk tier adds [10,20], medium tier adds [5,10], low tier
adds [-10,5] (evaluated top down, as in the table). -/
def specContribCountry (country : String) (c : ℤ) : Prop :=
  if country ∈ HIGH_RISK_COUNTRIES then 10 ≤ c ∧ c ≤ 20
  else if country ∈ MEDIUM_RISK_COUNTRIES then 5 ≤ c ∧ c ≤ 10
  else -10 ≤ c ∧ c ≤ 5

/-- Spec 4.2: amount > 5·T adds [15,25]; amount > T (and ≤ 5·T) adds [5,15];
otherwise no amount bonus. -/
def specContribAmount (amount : ℚ) (thr : ℤ) (c : ℤ) : Prop :=
  if amount > (thr : ℚ) * 5 then 15 ≤ c ∧ c ≤ 25
  else if amount > (thr : ℚ) then 5 ≤ c ∧ c ≤ 15
  else c = 0

/-- Spec 4.2: riskProfile High adds [5,15]; Low subtracts [5,15]; Medium
contributes nothing. -/
def specContribProfile (profile : String) (c : ℤ) : Prop :=
  if profile = "High" then 5 ≤ c ∧ c ≤ 15
  else if profile = "Low" then -15 ≤ c ∧ c ≤ -5
  else c = 0

/-- Spec 4.2 band table: recommended action from the final clamped score,
highest band first. -/
def specBandAction (score : ℤ) : String :=
  if score ≥ 80 then "Escalate"
  else if score ≥ 60 then "Escalate"
  else if score ≥ 40 then "Monitor"
  else if score ≥ 20 then "Monitor"
  else "Dismiss"

/-- Spec 4.2 band table: assessment text from the final clamped score,
highest band first, with the high-risk-entity suffix in the top band. -/
def specBandAssessment (score : ℤ) (transaction_type country risk_level : String) : String :=
  if score ≥ 80 then
    ("Very high risk - " ++ transaction_type ++ " in " ++ country)
      ++ (if risk_level = "High" then " from high-risk entity" else "")
  else if score ≥ 60 then "High risk " ++ transaction_type
  else if score ≥ 40 then "Medium risk " ++ transaction_type ++ " requiring review"
  else if score ≥ 20 then "Low risk transaction within normal parameters"
  else "Very low risk " ++ transaction_type

/- ### Characterization of the computed risk score -/

theorem analysis_map_riskScore (tx : Transaction) (thr : ℤ)
    (hthr : amount_thresholds tx.transactionType = some thr) (u1 u2 u3 u4 : ℕ) :
    (generate_ai_analysis tx u1 u2 u3 u4).map Analysis.riskScore
      = some (clampScore (50
          + (if tx.riskIndicator = "High" then randint 20 35 u1 else randint (-20) 5 u1)
          + (if tx.country ∈ HIGH_RISK_COUNTRIES then randint 10 20 u2
             else if tx.country ∈ MEDIUM_RISK_COUNTRIES then randint 5 10 u2
             else randint (-10) 5 u2)
          + (if tx.amount > (thr : ℚ) * 5 then randint 15 25 u3
             else if tx.amount > (thr : ℚ) then randint 5 15 u3 else 0)
          + (if tx.customerInfo.riskProfile = "High" then randint 5 15 u4
             else if tx.customerInfo.riskProfile = "Low" then -(randint 5 15 u4)
             else 0))) := by
  simp only [generate_ai_analysis, clampScore, hthr]
  rfl

theorem contribIndicator_range (r : String) (u : ℕ) :
    specContribIndicator r (if r = "High" then randint 20 35 u else randint (-20) 5 u) := by
  unfold specContribIndicator
  split_ifs with h
  · exact randint_mem 20 35 u (by norm_num)
  · exact randint_mem (-20) 5 u (by norm_num)

theorem contribIndicator_exact (r : String) (c : ℤ) (h : specContribIndicator r c) :
    ∃ u : ℕ, (if r = "High" then randint 20 35 u else randint (-20) 5 u) = c := by
  unfold specContribIndicator at h
  split_ifs at h with hr
  · exact ⟨(c - 20).toNat, by rw [if_pos hr]; exact randint_exact 20 35 c h.1 h.2⟩
  · exact ⟨(c - (-20)).toNat, by rw [if_neg hr]; exact randint_exact (-20) 5 c h.1 h.2⟩

theorem contribCountry_range (country : String) (u : ℕ) :
    specContribCountry country
      (if country ∈ HIGH_RISK_COUNTRIES then randint 10 20 u
       else if country ∈ MEDIUM_RISK_COUNTRIES then randint 5 10 u
       else randint (-10) 5 u) := by
  unfold specContribCountry
  split_ifs with h1 h2
  · exact randint_mem 10 20 u (by norm_num)
  · exact randint_mem 5 10 u (by norm_num)
  · exact randint_mem (-10) 5 u (by norm_num)

theorem contribCountry_exact (country : String) (c : ℤ) (h : specContribCountry country c) :
    ∃ u : ℕ, (if country ∈ HIGH_RISK_COUNTRIES then randint 10 20 u
              else if country ∈ MEDIUM_RISK_COUNTRIES then randint 5 10 u
              else randint (-10) 5 u) = c := by
  unfold specContribCountry at h
  split_ifs at h with h1 h2
  · exact ⟨(c - 10).toNat, by rw [if_pos h1]; exact randint_exact 10 20 c h.1 h.2⟩
  · exact ⟨(c - 5).toNat, by rw [if_neg h1, if_pos h2]; exact randint_exact 5 10 c h.1 h.2⟩
  · exact ⟨(c - (-10)).toNat, by rw [if_neg h1, if_neg h2]; exact randint_exact (-10) 5 c h.1 h.2⟩

theorem contribAmount_range (amount : ℚ) (thr : ℤ) (u : ℕ) :
    specContribAmount amount thr
      (if amount > (thr : ℚ) * 5 then randint 15 25 u
       else if amount > (thr : ℚ) then randint 5 15 u else 0) := by
  unfold specContribAmount
  split_ifs with h1 h2
  · exact randint_mem 15 25 u (by norm_num)
  · exact randint_mem 5 15 u (by norm_num)
  · rfl

theorem contribAmount_exact (amount : ℚ) (thr : ℤ) (c : ℤ) (h : specContribAmount amount thr c) :
    ∃ u : ℕ, (if amount > (thr : ℚ) * 5 then randint 15 25 u
              else if amount > (thr : ℚ) then randint 5 15 u else 0) = c := by
  unfold specContribAmount at h
  split_ifs at h with h1 h2
  · exact ⟨(c - 15).toNat, by rw [if_pos h1]; exact randint_exact 15 25 c h.1 h.2⟩
  · exact ⟨(c - 5).toNat, by rw [if_neg h1, if_pos h2]; exact randint_exact 5 15 c h.1 h.2⟩
  · exact ⟨0, by rw [if_neg h1, if_neg h2, h]⟩

theorem contribProfile_range (profile : String) (u : ℕ) :
    specContribProfile profile
      (if profile = "High" then randint 5 15 u
       else if profile = "Low" then -(randint 5 15 u) else 0) := by
  unfold specContribProfile
  split_ifs with h1 h2
  · exact randint_mem 5 15 u (by norm_num)
  · have := randint_mem 5 15 u (by norm_num)
    omega
  · rfl

theorem contribProfile_exact (profile : String) (c : ℤ) (h : specContribProfile profile c) :
    ∃ u : ℕ, (if profile = "High" then randint 5 15 u
              else if profile = "Low" then -(randint 5 15 u) else 0) = c := by
  unfold specContribProfile at h
  split_ifs at h with h1 h2
  · exact ⟨(c - 5).toNat, by rw [if_pos h1]; exact randint_exact 5 15 c h.1 h.2⟩
  · refine ⟨(-c - 5).toNat, ?_⟩
    rw [if_neg h1, if_pos h2]
    have : randint 5 15 (-c - 5).toNat = -c := randint_exact 5 15 (-c) (by omega) (by omega)
    omega
  · exact ⟨0, by rw [if_neg h1, if_neg h2, h]⟩

/-- C1: for every transaction, the analysis computes the risk score as base 50
plus independent contributions — riskIndicator High in [20,35] / Normal in
[-20,5]; high-risk country tier in [10,20], medium in [5,10], low in [-10,5];
amount above five times the per-type threshold (transfer 50000, deposit 25000,
withdrawal 15000, payment 5000) in [15,25], above the threshold in [5,15],
otherwise nothing; customer riskProfile High in [5,15], Low in [-15,-5],
Medium nothing — and the final riskScore is the sum clamped to [5,95].  Every
draw realizes such contributions, and every admissible contribution vector is
realized by some draw. -/
theorem C1_riskScore_additive_formula (tx : Transaction) (thr : ℤ)
    (hthr : amount_thresholds tx.transactionType = some thr) :
    (amount_thresholds "transfer" = some 50000 ∧ amount_thresholds "deposit" = some 25000 ∧
     amount_thresholds "withdrawal" = some 15000 ∧ amount_thresholds "payment" = some 5000) ∧
    (∀ u1 u2 u3 u4 : ℕ, ∃ c1 c2 c3 c4 : ℤ,
       specContribIndicator tx.riskIndicator c1 ∧
       specContribCountry tx.country c2 ∧
       specContribAmount tx.amount thr c3 ∧
       specContribProfile tx.customerInfo.riskProfile c4 ∧
       (generate_ai_analysis tx u1 u2 u3 u4).map Analysis.riskScore
         = some (clampScore (50 + c1 + c2 + c3 + c4))) ∧
    (∀ c1 c2 c3 c4 : ℤ,
       specContribIndicator tx.riskIndicator c1 →
       specContribCountry tx.country c2 →
       specContribAmount tx.amount thr c3 →
       specContribProfile tx.customerInfo.riskProfile c4 →
       ∃ u1 u2 u3 u4 : ℕ,
         (generate_ai_analysis tx u1 u2 u3 u4).map Analysis.riskScore
           = some (clampScore (50 + c1 + c2 + c3 + c4))) := by
  refine ⟨⟨by simp [amount_thresholds], by simp [amount_thresholds],
           by simp [amount_thresholds], by simp [amount_thresholds]⟩, ?_, ?_⟩
  · intro u1 u2 u3 u4
    exact ⟨_, _, _, _, contribIndicator_range tx.riskIndicator u1,
      contribCountry_range tx.country u2,
      contribAmount_range tx.amount thr u3,
      contribProfile_range tx.customerInfo.riskProfile u4,
      analysis_map_riskScore tx thr hthr u1 u2 u3 u4⟩
  · intro c1 c2 c3 c4 h1 h2 h3 h4
    obtain ⟨u1, hu1⟩ := contribIndicator_exact tx.riskIndicator c1 h1
    obtain ⟨u2, hu2⟩ := contribCountry_exact tx.country c2 h2
    obtain ⟨u3, hu3⟩ := contribAmount_exact tx.amount thr c3 h3
    obtain ⟨u4, hu4⟩ := contribProfile_exact tx.customerInfo.riskProfile c4 h4
    refine ⟨u1, u2, u3, u4, ?_⟩
    rw [analysis_map_riskScore tx thr hthr u1 u2 u3 u4, hu1, hu2, hu3, hu4]

/-- A concrete low-risk payment transaction used to witness C1. -/
def txC1 : Transaction :=
  { id := "TXN-00000001", customerId := "CUST-00000001", amount := 100,
    currency := "SGD", country := "USA", transactionType := "payment",
    riskIndicator := "Normal", timestamp := 0, status := "flagged",
    customerInfo := { name := "Alice", accountType := "Personal", riskProfile := "Medium" } }

/-- Witness for C1 at a concrete transaction. -/
theorem C1_riskScore_additive_formula_witness :
    amount_thresholds txC1.transactionType = some 5000 ∧
    ((amount_thresholds "transfer" = some 50000 ∧ amount_thresholds "deposit" = some 25000 ∧
      amount_thresholds "withdrawal" = some 15000 ∧ amount_thresholds "payment" = some 5000) ∧
     (∀ u1 u2 u3 u4 : ℕ, ∃ c1 c2 c3 c4 : ℤ,
        specContribIndicator txC1.riskIndicator c1 ∧
        specContribCountry txC1.country c2 ∧
        specContribAmount txC1.amount 5000 c3 ∧
        specContribProfile txC1.customerInfo.riskProfile c4 ∧
        (generate_ai_analysis txC1 u1 u2 u3 u4).map Analysis.riskScore
          = some (clampScore (50 + c1 + c2 + c3 + c4))) ∧
     (∀ c1 c2 c3 c4 : ℤ,
        specContribIndicator txC1.riskIndicator c1 →
        specContribCountry txC1.country c2 →
        specContribAmount txC1.amount 5000 c3 →
        specContribProfile txC1.customerInfo.riskProfile c4 →
        ∃ u1 u2 u3 u4 : ℕ,
          (generate_ai_analysis txC1 u1 u2 u3 u4).map Analysis.riskScore
            = some (clampScore (50 + c1 + c2 + c3 + c4)))) :=
  ⟨by simp [amount_thresholds, txC1],
   C1_riskScore_additive_formula txC1 5000 (by simp [amount_thresholds, txC1])⟩

/-- C2: for every transaction and every random draw, a produced analysis has
riskScore in [5,95], and its recommendedAction and riskAssessment are exactly
the ones the spec band table assigns to that final clamped score, evaluated
highest band first. -/
theorem generate_ai_analysis_eq (tx : Transaction) (thr rs : ℤ)
    (hthr : amount_thresholds tx.transactionType = some thr) (u1 u2 u3 u4 : ℕ)
    (hrs : rs = clampScore (50
        + (if tx.riskIndicator = "High" then randint 20 35 u1 else randint (-20) 5 u1)
        + (if tx.country ∈ HIGH_RISK_COUNTRIES then randint 10 20 u2
           else if tx.country ∈ MEDIUM_RISK_COUNTRIES then randint 5 10 u2
           else randint (-10) 5 u2)
        + (if tx.amount > (thr : ℚ) * 5 then randint 15 25 u3
           else if tx.amount > (thr : ℚ) then randint 5 15 u3 else 0)
        + (if tx.customerInfo.riskProfile = "High" then randint 5 15 u4
           else if tx.customerInfo.riskProfile = "Low" then -(randint 5 15 u4)
           else 0))) :
    generate_ai_analysis tx u1 u2 u3 u4
      = some { transactionId := tx.id
               riskScore := rs
               riskAssessment :=
                 specBandAssessment rs tx.transactionType tx.country tx.riskIndicator
               recommendedAction := specBandAction rs } := by
  subst hrs
  simp only [generate_ai_analysis, clampScore, specBandAssessment, specBandAction, hthr,
    Option.some.injEq, Analysis.mk.injEq, apply_ite Prod.fst, apply_ite Prod.snd]

/-- C2: for every transaction and every random draw, a produced analysis has
riskScore in [5,95], and its recommendedAction and riskAssessment are exactly
the ones the spec band table assigns to that final clamped score, evaluated
highest band first. -/
theorem C2_riskScore_bounds_and_banding (tx : Transaction) (u1 u2 u3 u4 : ℕ) (a : Analysis)
    (ha : generate_ai_analysis tx u1 u2 u3 u4 = some a) :
    (5 ≤ a.riskScore ∧ a.riskScore ≤ 95) ∧
    a.recommendedAction = specBandAction a.riskScore ∧
    a.riskAssessment
      = specBandAssessment a.riskScore tx.transactionType tx.country tx.riskIndicator := by
  cases hthr : amount_thresholds tx.transactionType with
  | none =>
    simp [generate_ai_analysis, hthr] at ha
  | some thr =>
    rw [generate_ai_analysis_eq tx thr _ hthr u1 u2 u3 u4 rfl] at ha
    simp only [Option.some.injEq] at ha
    subst ha
    exact ⟨⟨le_max_left _ _, max_le (by norm_num) (min_le_left _ _)⟩, rfl, rfl⟩

/-- A concrete low-risk payment transaction used to witness C2. -/
def txC2 : Transaction :=
  { id := "TXN-00000002", customerId := "CUST-00000002", amount := 100,
    currency := "SGD", country := "USA", transactionType := "payment",
    riskIndicator := "Normal", timestamp := 0, status := "flagged",
    customerInfo := { name := "Bob", accountType := "Personal", riskProfile := "Medium" } }

/-- The analysis that `generate_ai_analysis` produces on `txC2` at the zero
draws: 50 - 20 - 10 = 20, the low band. -/
def aC2 : Analysis :=
  { transactionId := "TXN-00000002", riskScore := 20,
    riskAssessment := "Low risk transaction within normal parameters",
    recommendedAction := "Monitor" }

theorem aC2_eval : generate_ai_analysis txC2 0 0 0 0 = some aC2 := by
  have e1 : randint (-20) 5 0 = -20 := by decide
  have e2 : randint (-10) 5 0 = -10 := by decide
  have h := generate_ai_analysis_eq txC2 5000 20 (by simp [amount_thresholds, txC2]) 0 0 0 0 ?hrs
  case hrs =>
    simp [clampScore, txC2, HIGH_RISK_COUNTRIES, MEDIUM_RISK_COUNTRIES, e1, e2]
    norm_num
  rw [h]
  simp [specBandAssessment, specBandAction, txC2, aC2]

/-- Witness for C2 at a concrete transaction and draw. -/
theorem C2_riskScore_bounds_and_banding_witness :
    generate_ai_analysis txC2 0 0 0 0 = some aC2 ∧
    ((5 ≤ aC2.riskScore ∧ aC2.riskScore ≤ 95) ∧
     aC2.recommendedAction = specBandAction aC2.riskScore ∧
     aC2.riskAssessment
       = specBandAssessment aC2.riskScore txC2.transactionType txC2.country txC2.riskIndicator) :=
  ⟨aC2_eval, C2_riskScore_bounds_and_banding txC2 0 0 0 0 aC2 aC2_eval⟩

/-- C6: a transfer with riskIndicator High, amount 1,500,000 and country
North Korea scores at least 60 and is Escalated on every possible draw: the
minimum possible sum is 50 + 20 + 10 + 15 - 15 = 80. -/
theorem C6_sanctioned_transfer_escalates (tx : Transaction) (u1 u2 u3 u4 : ℕ) (a : Analysis)
    (htype : tx.transactionType = "transfer") (hrisk : tx.riskIndicator = "High")
    (hamount : tx.amount = 1500000) (hcountry : tx.country = "North Korea")
    (ha : generate_ai_analysis tx u1 u2 u3 u4 = some a) :
    60 ≤ a.riskScore ∧ a.recommendedAction = "Escalate" := by
  have hthr : amount_thresholds tx.transactionType = some 50000 := by
    rw [htype]
    simp [amount_thresholds]
  rw [generate_ai_analysis_eq tx 50000 _ hthr u1 u2 u3 u4 rfl] at ha
  simp only [Option.some.injEq] at ha
  subst ha
  have h1 := randint_mem 20 35 u1 (by norm_num)
  have h2 := randint_mem 10 20 u2 (by norm_num)
  have h3 := randint_mem 15 25 u3 (by norm_num)
  have h4 := randint_mem 5 15 u4 (by norm_num)
  have hmem : ("North Korea" : String) ∈ HIGH_RISK_COUNTRIES := by
    simp [HIGH_RISK_COUNTRIES]
  have hgt : (1500000 : ℚ) > ((50000 : ℤ) : ℚ) * 5 := by norm_num
  simp only [hrisk, hcountry, hamount, hmem, hgt, eq_self_iff_true, if_true]
  constructor
  · simp only [clampScore]
    split_ifs <;> omega
  · simp only [specBandAction, clampScore]
    split_ifs <;> first | rfl | (exfalso; omega)

/-- The concrete sanctioned transfer used to witness C6. -/
def txC6 : Transaction :=
  { id := "TXN-00000006", customerId := "CUST-00000006", amount := 1500000,
    currency := "SGD", country := "North Korea", transactionType := "transfer",
    riskIndicator := "High", timestamp := 0, status := "flagged",
    customerInfo := { name := "Carol", accountType := "Corporate", riskProfile := "Low" } }

/-- The analysis produced on `txC6` at the zero draws:
50 + 20 + 10 + 15 - 5 = 90, the top band. -/
def aC6 : Analysis :=
  { transactionId := "TXN-00000006", riskScore := 90,
    riskAssessment := "Very high risk - transfer in North Korea from high-risk entity",
    recommendedAction := "Escalate" }

theorem aC6_eval : generate_ai_analysis txC6 0 0 0 0 = some aC6 := by
  have e1 : randint 20 35 0 = 20 := by decide
  have e2 : randint 10 20 0 = 10 := by decide
  have e3 : randint 15 25 0 = 15 := by decide
  have e4 : randint 5 15 0 = 5 := by decide
  have h := generate_ai_analysis_eq txC6 50000 90 (by simp [amount_thresholds, txC6]) 0 0 0 0 ?hrs
  case hrs =>
    simp [clampScore, txC6, HIGH_RISK_COUNTRIES, MEDIUM_RISK_COUNTRIES, e1, e2, e3, e4]
    norm_num
  rw [h]
  simp [specBandAssessment, specBandAction, txC6, aC6]

/-- Witness for C6 at a concrete transaction and draw. -/
theorem C6_sanctioned_transfer_escalates_witness :
    txC6.transactionType = "transfer" ∧ txC6.riskIndicator = "High" ∧
    txC6.amount = 1500000 ∧ txC6.country = "North Korea" ∧
    generate_ai_analysis txC6 0 0 0 0 = some aC6 ∧
    (60 ≤ aC6.riskScore ∧ aC6.recommendedAction = "Escalate") :=
  ⟨rfl, rfl, rfl, rfl, aC6_eval,
   C6_sanctioned_transfer_escalates txC6 0 0 0 0 aC6 rfl rfl rfl rfl aC6_eval⟩

/- ### Field characterizations of the generator -/

theorem generate_transaction_riskIndicator (c r t : Option String) (d : GenDraws) (now : ℤ) :
    (generate_transaction c r t d now).riskIndicator
      = resolveOpt r (choice RISK_INDICATORS d.uRisk) := rfl

theorem generate_transaction_transactionType (c r t : Option String) (d : GenDraws) (now : ℤ) :
    (generate_transaction c r t d now).transactionType
      = resolveOpt t (choice TRANSACTION_TYPES d.uTransType) := rfl

theorem generate_transaction_country (c r t : Option String) (d : GenDraws) (now : ℤ) :
    (generate_transaction c r t d now).country
      = resolveOpt c (choice (pickTierList (resolveOpt r (choice RISK_INDICATORS d.uRisk))
          d.uTierPick) d.uCountry) := rfl

theorem generate_transaction_amount (c r t : Option String) (d : GenDraws) (now : ℤ) :
    (generate_transaction c r t d now).amount
      = pickAmount (resolveOpt t (choice TRANSACTION_TYPES d.uTransType))
          (resolveOpt r (choice RISK_INDICATORS d.uRisk)) d.xAmount := rfl

theorem generate_transaction_timestamp (c r t : Option String) (d : GenDraws) (now : ℤ) :
    (generate_transaction c r t d now).timestamp
      = now - (86400 * randint 0 30 d.uDays + 3600 * randint 0 23 d.uHours
               + 60 * randint 0 59 d.uMinutes + randint 0 59 d.uSeconds) := rfl

/-- Spec 4.1 / C7: the documented (type, riskLevel) amount range, as
(lower bound, upper bound); the trailing case is `payment`. -/
def specAmountRange (transaction_type risk_level : String) : ℚ × ℚ :=
  if transaction_type = "transfer" then
    (if risk_level = "High" then ((50000 : ℚ), (2000000 : ℚ)) else (500, 50000))
  else if transaction_type = "deposit" then
    (if risk_level = "High" then (25000, 800000) else (200, 25000))
  else if transaction_type = "withdrawal" then
    (if risk_level = "High" then (15000, 200000) else (100, 15000))
  else
    (if risk_level = "High" then (5000, 150000) else (50, 5000))

theorem round2_uniform_mem (a b x : ℚ) (la lb : ℤ) (ha : a = (la : ℚ)) (hb : b = (lb : ℚ))
    (h : a ≤ b) :
    a ≤ round2 (uniform a b x) ∧ round2 (uniform a b x) ≤ b := by
  subst ha
  subst hb
  exact round2_bounds la lb _ (uniform_mem _ _ x h).1 (uniform_mem _ _ x h).2

theorem pickAmount_mem (t r : String) (x : ℚ) :
    (specAmountRange t r).1 ≤ pickAmount t r x ∧ pickAmount t r x ≤ (specAmountRange t r).2 := by
  unfold pickAmount specAmountRange
  split_ifs
  · exact round2_uniform_mem 50000 2000000 x 50000 2000000 (by norm_num) (by norm_num) (by norm_num)
  · exact round2_uniform_mem 500 50000 x 500 50000 (by norm_num) (by norm_num) (by norm_num)
  · exact round2_uniform_mem 25000 800000 x 25000 800000 (by norm_num) (by norm_num) (by norm_num)
  · exact round2_uniform_mem 200 25000 x 200 25000 (by norm_num) (by norm_num) (by norm_num)
  · exact round2_uniform_mem 15000 200000 x 15000 200000 (by norm_num) (by norm_num) (by norm_num)
  · exact round2_uniform_mem 100 15000 x 100 15000 (by norm_num) (by norm_num) (by norm_num)
  · exact round2_uniform_mem 5000 150000 x 5000 150000 (by norm_num) (by norm_num) (by norm_num)
  · exact round2_uniform_mem 50 5000 x 50 5000 (by norm_num) (by norm_num) (by norm_num)

theorem pickAmount_two_decimals (t r : String) (x : ℚ) :
    ∃ n : ℤ, 100 * pickAmount t r x = (n : ℚ) := by
  unfold pickAmount
  split_ifs <;> exact round2_two_decimals _

/-- C7: every generated transaction's amount lies in the fixed
(type, riskLevel)-specific bounded range of the table, is a two-decimal
value, and for every type the High range's lower bound is at least the Normal
range's upper bound. -/
theorem C7_amount_in_documented_range (c r t : Option String) (d : GenDraws) (now : ℤ) :
    ((specAmountRange (generate_transaction c r t d now).transactionType
        (generate_transaction c r t d now).riskIndicator).1
       ≤ (generate_transaction c r t d now).amount ∧
     (generate_transaction c r t d now).amount
       ≤ (specAmountRange (generate_transaction c r t d now).transactionType
            (generate_transaction c r t d now).riskIndicator).2) ∧
    (∃ n : ℤ, 100 * (generate_transaction c r t d now).amount = (n : ℚ)) ∧
    (∀ ty ∈ TRANSACTION_TYPES, (specAmountRange ty "Normal").2 ≤ (specAmountRange ty "High").1) := by
  refine ⟨?_, ?_, ?_⟩
  · exact pickAmount_mem _ _ _
  · exact pickAmount_two_decimals _ _ _
  · intro ty hty
    fin_cases hty <;> simp [specAmountRange]

/- ### Batch generation -/

theorem batch_length (count : ℤ) (frac : ℚ) (ds : ℕ → GenDraws) (now : ℤ) :
    (generate_transactions count frac ds now).length
      = (pyInt ((count : ℚ) * frac)).toNat + (count - pyInt ((count : ℚ) * frac)).toNat := by
  simp only [generate_transactions]
  rw [List.length_mergeSort]
  simp [List.length_append]

theorem batch_countP_high (count : ℤ) (frac : ℚ) (ds : ℕ → GenDraws) (now : ℤ) :
    (generate_transactions count frac ds now).countP (fun t => t.riskIndicator == "High")
      = (pyInt ((count : ℚ) * frac)).toNat := by
  simp only [generate_transactions]
  rw [List.Perm.countP_eq _ (List.mergeSort_perm _ _), List.countP_append,
    List.countP_map, List.countP_map]
  have hh : ((fun t : Transaction => t.riskIndicator == "High")
      ∘ (fun i => generate_transaction none (some "High") none (ds i) now))
      = fun _ => true := by
    funext i
    simp [Function.comp, generate_transaction_riskIndicator, resolveOpt]
  have hn : ((fun t : Transaction => t.riskIndicator == "High")
      ∘ (fun i => generate_transaction none (some "Normal") none
          (ds ((pyInt ((count : ℚ) * frac)).toNat + i)) now))
      = fun _ => false := by
    funext i
    simp [Function.comp, generate_transaction_riskIndicator, resolveOpt]
  rw [hh, hn]
  simp [List.countP_true, List.countP_false]

theorem batch_countP_normal (count : ℤ) (frac : ℚ) (ds : ℕ → GenDraws) (now : ℤ) :
    (generate_transactions count frac ds now).countP (fun t => t.riskIndicator == "Normal")
      = (count - pyInt ((count : ℚ) * frac)).toNat := by
  simp only [generate_transactions]
  rw [List.Perm.countP_eq _ (List.mergeSort_perm _ _), List.countP_append,
    List.countP_map, List.countP_map]
  have hh : ((fun t : Transaction => t.riskIndicator == "Normal")
      ∘ (fun i => generate_transaction none (some "High") none (ds i) now))
      = fun _ => false := by
    funext i
    simp [Function.comp, generate_transaction_riskIndicator, resolveOpt]
  have hn : ((fun t : Transaction => t.riskIndicator == "Normal")
      ∘ (fun i => generate_transaction none (some "Normal") none
          (ds ((pyInt ((count : ℚ) * frac)).toNat + i)) now))
      = fun _ => true := by
    funext i
    simp [Function.comp, generate_transaction_riskIndicator, resolveOpt]
  rw [hh, hn]
  simp [List.countP_true, List.countP_false]

theorem batch_sorted (count : ℤ) (frac : ℚ) (ds : ℕ → GenDraws) (now : ℤ) :
    List.Sorted (fun a b : Transaction => b.timestamp ≤ a.timestamp)
      (generate_transactions count frac ds now) := by
  simp only [generate_transactions]
  refine List.Pairwise.imp ?_ (List.sorted_mergeSort ?_ ?_ _)
  · intro a b h
    simpa using h
  · intro a b c hab hbc
    simp only [decide_eq_true_eq] at *
    omega
  · intro a b
    rcases Int.le_total b.timestamp a.timestamp with h | h <;> simp [h]

/-- C3: for count > 0 and highRiskFraction in [0,1], the batch generator
computes highRiskCount = floor(count * highRiskFraction) (truncation equals
floor on nonnegative input), produces exactly that many transactions with
riskIndicator forced to High and exactly count - highRiskCount forced to
Normal, the two counts sum exactly to count, the result has length count, and
it is sorted by timestamp descending. -/
theorem C3_batch_counts_and_sort (count : ℤ) (frac : ℚ) (ds : ℕ → GenDraws) (now : ℤ)
    (hcount : 0 < count) (h0 : 0 ≤ frac) (h1 : frac ≤ 1) :
    pyInt ((count : ℚ) * frac) = ⌊(count : ℚ) * frac⌋ ∧
    (generate_transactions count frac ds now).countP
        (fun t => t.riskIndicator == "High") = (⌊(count : ℚ) * frac⌋).toNat ∧
    (generate_transactions count frac ds now).countP
        (fun t => t.riskIndicator == "Normal") = (count - ⌊(count : ℚ) * frac⌋).toNat ∧
    ((⌊(count : ℚ) * frac⌋).toNat : ℤ) + ((count - ⌊(count : ℚ) * frac⌋).toNat : ℤ) = count ∧
    (generate_transactions count frac ds now).length = count.toNat ∧
    List.Sorted (fun a b : Transaction => b.timestamp ≤ a.timestamp)
      (generate_transactions count frac ds now) := by
  have hq : (0 : ℚ) ≤ (count : ℚ) * frac := by
    apply mul_nonneg _ h0
    exact_mod_cast hcount.le
  have hpy : pyInt ((count : ℚ) * frac) = ⌊(count : ℚ) * frac⌋ :=
    pyInt_eq_floor_of_nonneg _ hq
  have hfl0 : 0 ≤ ⌊(count : ℚ) * frac⌋ := Int.floor_nonneg.mpr hq
  have hflc : ⌊(count : ℚ) * frac⌋ ≤ count := by
    have hle : (count : ℚ) * frac ≤ (count : ℚ) := by
      have := mul_le_mul_of_nonneg_left h1 (show (0:ℚ) ≤ (count : ℚ) by exact_mod_cast hcount.le)
      simpa using this
    have h2 := Int.floor_le_floor hle
    rwa [Int.floor_intCast] at h2
  refine ⟨hpy, ?_, ?_, by omega, ?_, batch_sorted count frac ds now⟩
  · rw [batch_countP_high, hpy]
  · rw [batch_countP_normal, hpy]
  · rw [batch_length, hpy]
    omega

/-- Witness for C3 at count 2 and fraction 1/2. -/
theorem C3_batch_counts_and_sort_witness :
    (0 : ℤ) < 2 ∧ (0 : ℚ) ≤ 1/2 ∧ (1/2 : ℚ) ≤ 1 ∧
    (pyInt (((2 : ℤ) : ℚ) * (1/2)) = ⌊((2 : ℤ) : ℚ) * (1/2)⌋ ∧
     (generate_transactions 2 (1/2) (fun _ => default) 0).countP
         (fun t => t.riskIndicator == "High") = (⌊((2 : ℤ) : ℚ) * (1/2)⌋).toNat ∧
     (generate_transactions 2 (1/2) (fun _ => default) 0).countP
         (fun t => t.riskIndicator == "Normal") = ((2 : ℤ) - ⌊((2 : ℤ) : ℚ) * (1/2)⌋).toNat ∧
     ((⌊((2 : ℤ) : ℚ) * (1/2)⌋).toNat : ℤ) + (((2 : ℤ) - ⌊((2 : ℤ) : ℚ) * (1/2)⌋).toNat : ℤ) = 2 ∧
     (generate_transactions 2 (1/2) (fun _ => default) 0).length = (2 : ℤ).toNat ∧
     List.Sorted (fun a b : Transaction => b.timestamp ≤ a.timestamp)
       (generate_transactions 2 (1/2) (fun _ => default) 0)) :=
  ⟨by norm_num, by norm_num, by norm_num,
   C3_batch_counts_and_sort 2 (1/2) (fun _ => default) 0 (by norm_num) (by norm_num) (by norm_num)⟩

/- ### C4: no validation of explicit enum arguments -/

/-- A concrete zero draw used for C4. -/
def dC4 : GenDraws :=
  { uRisk := 0, uTierPick := 0, uCountry := 0, uTransType := 0, xAmount := 0,
    uDays := 0, uHours := 0, uMinutes := 0, uSeconds := 0, uStatus := 0,
    uAccount := 0, uProfile := 0, idSuffix := "00000004", custSuffix := "00000004",
    custName := "Dana" }

/-- C4 counterexample: an explicit riskLevel, transactionType and country
outside the documented enums are not rejected — the generator returns a
transaction carrying the invalid values verbatim, with the amount drawn from
the Normal payment branch (the trailing `else` of the type dispatch). -/
theorem C4_invalid_enums_counterexample :
    (generate_transaction (some "Atlantis") (some "Bogus") (some "gift") dC4 0).riskIndicator
      = "Bogus" ∧
    (generate_transaction (some "Atlantis") (some "Bogus") (some "gift") dC4 0).transactionType
      = "gift" ∧
    (generate_transaction (some "Atlantis") (some "Bogus") (some "gift") dC4 0).country
      = "Atlantis" ∧
    (generate_transaction (some "Atlantis") (some "Bogus") (some "gift") dC4 0).amount = 50 := by
  refine ⟨?_, ?_, ?_, ?_⟩
  · rw [generate_transaction_riskIndicator, resolveOpt_some_ne _ _ (by decide)]
  · rw [generate_transaction_transactionType, resolveOpt_some_ne _ _ (by decide)]
  · rw [generate_transaction_country, resolveOpt_some_ne _ _ (by decide)]
  · rw [generate_transaction_amount, resolveOpt_some_ne _ _ (by decide),
      resolveOpt_some_ne _ _ (by decide)]
    show pickAmount "gift" "Bogus" (0 : ℚ) = 50
    simp [pickAmount]
    norm_num [round2, rne, uniform, fract, ratFloor]

/-- C4 amended: the generator performs no validation of its explicit
arguments — unrecognized nonempty riskLevel, transactionType and country
values are accepted and passed through verbatim into the returned
transaction, an unrecognized transactionType takes the trailing payment
amount branch, and an unrecognized riskLevel behaves as a non-High level;
an explicitly supplied empty string is falsy in Python and is instead
treated as unspecified, replaced by a drawn default. -/
theorem C4_invalid_enums_accepted (c r t : String) (d : GenDraws) (now : ℤ)
    (hc : c ≠ "") (hr0 : r ≠ "") (ht0 : t ≠ "")
    (hr : r ≠ "High") (ht1 : t ≠ "transfer") (ht2 : t ≠ "deposit") (ht3 : t ≠ "withdrawal") :
    (generate_transaction (some c) (some r) (some t) d now).riskIndicator = r ∧
    (generate_transaction (some c) (some r) (some t) d now).transactionType = t ∧
    (generate_transaction (some c) (some r) (some t) d now).country = c ∧
    (generate_transaction (some c) (some r) (some t) d now).amount
      = round2 (uniform 50 5000 d.xAmount) ∧
    (generate_transaction (some c) (some "") (some t) d now).riskIndicator
      = choice RISK_INDICATORS d.uRisk := by
  refine ⟨?_, ?_, ?_, ?_, ?_⟩
  · rw [generate_transaction_riskIndicator, resolveOpt_some_ne _ _ hr0]
  · rw [generate_transaction_transactionType, resolveOpt_some_ne _ _ ht0]
  · rw [generate_transaction_country, resolveOpt_some_ne _ _ hc]
  · rw [generate_transaction_amount, resolveOpt_some_ne _ _ ht0, resolveOpt_some_ne _ _ hr0]
    unfold pickAmount
    rw [if_neg ht1, if_neg ht2, if_neg ht3, if_neg hr]
  · rw [generate_transaction_riskIndicator]
    simp [resolveOpt]

/-- Witness for the amended C4 at concrete invalid arguments. -/
theorem C4_invalid_enums_accepted_witness :
    ("Atlantis" : String) ≠ "" ∧ ("Bogus" : String) ≠ "" ∧ ("gift" : String) ≠ "" ∧
    ("Bogus" : String) ≠ "High" ∧ ("gift" : String) ≠ "transfer" ∧
    ("gift" : String) ≠ "deposit" ∧ ("gift" : String) ≠ "withdrawal" ∧
    ((generate_transaction (some "Atlantis") (some "Bogus") (some "gift") dC4 0).riskIndicator
       = "Bogus" ∧
     (generate_transaction (some "Atlantis") (some "Bogus") (some "gift") dC4 0).transactionType
       = "gift" ∧
     (generate_transaction (some "Atlantis") (some "Bogus") (some "gift") dC4 0).country
       = "Atlantis" ∧
     (generate_transaction (some "Atlantis") (some "Bogus") (some "gift") dC4 0).amount
       = round2 (uniform 50 5000 dC4.xAmount) ∧
     (generate_transaction (some "Atlantis") (some "") (some "gift") dC4 0).riskIndicator
       = choice RISK_INDICATORS dC4.uRisk) :=
  ⟨by decide, by decide, by decide, by decide, by decide, by decide, by decide,
   C4_invalid_enums_accepted "Atlantis" "Bogus" "gift" dC4 0
     (by decide) (by decide) (by decide) (by decide) (by decide) (by decide) (by decide)⟩

/- ### C5: no validation of batch arguments -/

/-- A concrete zero draw used for C5. -/
def dC5 : GenDraws :=
  { uRisk := 0, uTierPick := 0, uCountry := 0, uTransType := 0, xAmount := 0,
    uDays := 0, uHours := 0, uMinutes := 0, uSeconds := 0, uStatus := 0,
    uAccount := 0, uProfile := 0, idSuffix := "00000005", custSuffix := "00000005",
    custName := "Finn" }

/-- C5 counterexample: `generate_transactions 10 2` is neither rejected nor
clamped — it returns 20 transactions, twice the requested count. -/
theorem C5_fraction_above_one_counterexample :
    (generate_transactions 10 2 (fun _ => dC5) 0).length = 20 ∧ (10 : ℤ) < 20 := by
  constructor
  · rw [batch_length]
    have h20 : pyInt ((10 : ℚ) * 2) = 20 := by norm_num [pyInt, ratFloor]
    rw [show (((10 : ℤ) : ℚ)) = (10 : ℚ) by norm_num, h20]
    decide
  · norm_num

/-- C5 amended: the batch generator validates nothing — for every count and
fraction it returns exactly trunc(count·fraction) High transactions plus
(count - trunc(count·fraction)) Normal ones, negative loop bounds acting as
zero; for fraction > 1 the result is longer than count, and for count ≤ 0 the
result need not be empty unless both loop bounds are nonpositive. -/
theorem C5_no_batch_validation (count : ℤ) (frac : ℚ) (ds : ℕ → GenDraws) (now : ℤ) :
    (generate_transactions count frac ds now).length
      = (pyInt ((count : ℚ) * frac)).toNat + (count - pyInt ((count : ℚ) * frac)).toNat :=
  batch_length count frac ds now

/- ### C8: timestamp can fall outside the last 30 days -/

/-- The extreme draw permitted by lines 142-145 of `data_generator.py`:
days_ago = 30, hours_ago = 23, minutes_ago = 59, seconds_ago = 59. -/
def dC8 : GenDraws :=
  { uRisk := 0, uTierPick := 0, uCountry := 0, uTransType := 0, xAmount := 0,
    uDays := 30, uHours := 23, uMinutes := 59, uSeconds := 59, uStatus := 0,
    uAccount := 0, uProfile := 0, idSuffix := "00000008", custSuffix := "00000008",
    custName := "Erin" }

/-- C8: at the extreme permitted draw the generated timestamp lies
2678399 seconds (30 days, 23:59:59) before the generation time, which exceeds
the 30 days (2592000 seconds) that the spec and the code's own comment
promise. -/
theorem C8_timestamp_can_exceed_30_days :
    0 - (generate_transaction none none none dC8 0).timestamp = 2678399 ∧
    (30 * 86400 : ℤ) < 2678399 := by
  constructor
  · rw [generate_transaction_timestamp]
    decide
  · decide

/- ### C9: lookup of an absent id fabricates and stores a transaction -/

def emptyState : AppState := { transaction_store := [], analysis_store := [] }

/-- A concrete zero draw used for C9. -/
def dC9 : GenDraws :=
  { uRisk := 0, uTierPick := 0, uCountry := 0, uTransType := 0, xAmount := 0,
    uDays := 0, uHours := 0, uMinutes := 0, uSeconds := 0, uStatus := 0,
    uAccount := 0, uProfile := 0, idSuffix := "00000009", custSuffix := "00000009",
    custName := "Gale" }

/-- C9 counterexample: on an empty store, looking up an unknown id does not
report absence — a fresh transaction carrying the requested id is returned
and the transaction store grows by one entry. -/
theorem C9_absent_id_counterexample :
    (get_transaction_by_id emptyState "TXN-MISSING" dC9 0).1.id = "TXN-MISSING" ∧
    (get_transaction_by_id emptyState "TXN-MISSING" dC9 0).2.transaction_store.length = 1 := by
  constructor <;> rfl

/-- C9 amended: for every id absent from the transaction store, the lookup
endpoint generates a fresh transaction, overwrites its id with the requested
one, prepends it to the transaction store, and returns it; the analysis store
is untouched. -/
theorem C9_absent_id_fabricates_and_stores (st : AppState) (tid : String) (d : GenDraws)
    (now : ℤ) (habs : lookupTx st.transaction_store tid = none) :
    (get_transaction_by_id st tid d now).1.id = tid ∧
    (get_transaction_by_id st tid d now).2.transaction_store
      = (tid, (get_transaction_by_id st tid d now).1) :: st.transaction_store ∧
    (get_transaction_by_id st tid d now).2.analysis_store = st.analysis_store := by
  simp [get_transaction_by_id, habs]

/-- Witness for the amended C9 on the empty store. -/
theorem C9_absent_id_fabricates_and_stores_witness :
    lookupTx emptyState.transaction_store "TXN-MISSING" = none ∧
    ((get_transaction_by_id emptyState "TXN-MISSING" dC9 0).1.id = "TXN-MISSING" ∧
     (get_transaction_by_id emptyState "TXN-MISSING" dC9 0).2.transaction_store
       = ("TXN-MISSING", (get_transaction_by_id emptyState "TXN-MISSING" dC9 0).1)
           :: emptyState.transaction_store ∧
     (get_transaction_by_id emptyState "TXN-MISSING" dC9 0).2.analysis_store
       = emptyState.analysis_store) :=
  ⟨rfl, C9_absent_id_fabricates_and_stores emptyState "TXN-MISSING" dC9 0 rfl⟩

/- ### C10: the status update endpoint is pure with respect to the stores -/

/-- C10: for every transaction id and every requested status value, the
status-update endpoint leaves both in-memory stores completely unchanged, so
in particular the stored transaction under any id (and its status field) is
exactly what it was before the call. -/
theorem C10_status_update_leaves_stores_unchanged (st : AppState) (tid : String)
    (upd : Option String) :
    (update_transaction_status st tid upd).2 = st ∧
    (update_transaction_status st tid upd).2.transaction_store = st.transaction_store ∧
    (update_transaction_status st tid upd).2.analysis_store = st.analysis_store ∧
    lookupTx (update_transaction_status st tid upd).2.transaction_store tid
      = lookupTx st.transaction_store tid := by
  have h2 : (update_transaction_status st tid upd).2 = st := by
    unfold update_transaction_status
    cases upd with
    | none => rfl
    | some s =>
      dsimp only
      split_ifs <;> rfl
  exact ⟨h2, by rw [h2], by rw [h2], by rw [h2]⟩

end FCM
